import Mathlib

/-!
Shallow embedding of `src/app.py` (a Streamlit app that forwards a user
question, tagged with an expert persona, to a remote chat-completion API).

The remote world (client construction succeeding or raising, and the result
of `chat.invoke`) is modelled by an explicit environment `LLMEnv`; the pure
function `get_llm_response` mirrors the Python function of the same name and
additionally records, in a `DispatchTrace`, every call made to the remote
endpoint.  The module-level startup check and the button handler are
modelled by `run_app`.
-/

namespace App

/-- Message role, as in `langchain.schema`: `SystemMessage` vs `HumanMessage`. -/
inductive Role where
  | system
  | user
  deriving DecidableEq

/-- One chat message: a role and a content string. -/
structure Message where
  role : Role
  content : String
  deriving DecidableEq

/-- Embedding of the `httpx.Client(proxies=None, trust_env=False)` value:
only the two explicitly passed configuration fields. -/
structure HttpxClient where
  proxies : Option String
  trust_env : Bool
  deriving DecidableEq

/-- Embedding of the `ChatOpenAI(...)` client configuration built in
`get_llm_response` (src/app.py lines 48-53). -/
structure ChatOpenAI where
  model_name : String
  temperature : ℚ
  openai_api_key : Option String
  http_client : HttpxClient
  deriving DecidableEq

/-- Outcome of the remote call `chat.invoke(messages)`: either the returned
assistant text or a raised exception (carried as its message string). -/
inductive InvokeResult where
  | success (text : String)
  | failure (err : String)
  deriving DecidableEq

/-- Environment modelling the effectful parts of `get_llm_response`:
`initError = some e` means constructing the httpx client or the `ChatOpenAI`
client raises exception `e`; `invoke` gives the outcome of `chat.invoke`. -/
structure LLMEnv where
  initError : Option String
  invoke : ChatOpenAI → List Message → InvokeResult

/-- Result of one run of `get_llm_response`: the returned string together
with the list of calls made to the remote completion endpoint (each call
records the client configuration and the message list passed to it). -/
structure DispatchTrace where
  result : String
  remoteCalls : List (ChatOpenAI × List Message)
  deriving DecidableEq

/-- Embedding of src/app.py lines 34-40: the if/elif/else chain resolving the
system message content from the selected expert type. -/
def get_system_message_content (expert_type : String) : String :=
  if expert_type = "心理カウンセラー" then
    "あなたは経験豊富で共感力の高い心理カウンセラーです。利用者の悩みや感情に寄り添い、専門的な知識に基づいて具体的かつ建設的なアドバイスをしてください。"
  else if expert_type = "健康アドバイザー" then
    "あなたは知識が豊富で信頼できる健康アドバイザーです。栄養、運動、生活習慣に関する質問に対し、科学的根拠に基づいた分かりやすい情報と実践的なアドバイスを提供してください。"
  else
    "あなたは親切で有能なAIアシスタントです。"

/-- Embedding of `get_llm_response(user_input, expert_type)` from src/app.py
lines 22-74.  The module-level global `OPENAI_API_KEY` is passed explicitly
as `key`; `env` models the remote effects. -/
def get_llm_response (key : Option String) (env : LLMEnv)
    (user_input : String) (expert_type : String) : DispatchTrace :=
  let system_message_content := get_system_message_content expert_type
  match env.initError with
  | some _ =>
    { result := "モデルの初期化に失敗しました。設定を確認してください。"
      remoteCalls := [] }
  | none =>
    let custom_httpx_client : HttpxClient :=
      { proxies := none
        trust_env := false }
    let chat : ChatOpenAI :=
      { model_name := "gpt-3.5-turbo"
        temperature := (0.7 : ℚ)
        openai_api_key := key
        http_client := custom_httpx_client }
    let messages : List Message :=
      [ { role := Role.system, content := system_message_content },
        { role := Role.user, content := user_input } ]
    match env.invoke chat messages with
    | InvokeResult.success text =>
      { result := text
        remoteCalls := [(chat, messages)] }
    | InvokeResult.failure _ =>
      { result := "回答の取得中にエラーが発生しました。しばらくしてからもう一度お試しください。"
        remoteCalls := [(chat, messages)] }

/-- The fixed client configuration that `get_llm_response` builds whenever
construction succeeds (src/app.py lines 44-53). -/
def the_chat (key : Option String) : ChatOpenAI :=
  { model_name := "gpt-3.5-turbo"
    temperature := (0.7 : ℚ)
    openai_api_key := key
    http_client :=
      { proxies := none
        trust_env := false } }

/-- The two-message conversation `get_llm_response` builds (src/app.py
lines 61-64). -/
def the_messages (expert_type user_input : String) : List Message :=
  [ { role := Role.system, content := get_system_message_content expert_type },
    { role := Role.user, content := user_input } ]

/-- Python truthiness of the `OPENAI_API_KEY` global: `os.getenv` yields
`None` when the variable is absent, and `not OPENAI_API_KEY` is true exactly
when the value is `None` or the empty string. -/
def truthy (s : Option String) : Bool :=
  match s with
  | none => false
  | some t => !(t = "")

/-- The characters stripped by Python's `str.strip()` with no argument:
everything `str.isspace()` accepts — ASCII whitespace, the separator
controls FS/GS/RS/US, NEL, no-break space, the Unicode space separators
(Ogham space, U+2000-U+200A, narrow and medium no-break spaces, the
ideographic full-width space) and the line/paragraph separators. -/
def isPythonSpace (c : Char) : Bool :=
  c = ' ' || c = '\t' || c = '\n' || c = '\r' || c = '\x0b' || c = '\x0c'
    || c = '\x1c' || c = '\x1d' || c = '\x1e' || c = '\x1f'
    || c = '\x85' || c = '\xa0'
    || c = '\u1680'
    || ('\u2000' ≤ c && c ≤ '\u200a')
    || c = '\u2028' || c = '\u2029' || c = '\u202f' || c = '\u205f'
    || c = '\u3000'

/-- Embedding of Python `s.strip()`: drop leading and trailing whitespace. -/
def pyStrip (s : String) : String :=
  String.mk (((s.toList.dropWhile isPythonSpace).reverse.dropWhile
    isPythonSpace).reverse)

/-- The widget state of one Streamlit script run: the text-area content, the
radio-button selection, and whether the submit button was pressed. -/
structure UIState where
  user_query : String
  selected_expert : String
  button_pressed : Bool

/-- Observable outcome of one script run: whether `st.stop()` halted the
script, the `st.error` / `st.warning` messages shown, the calls made to
`get_llm_response`, the remote endpoint calls, and the rendered outputs. -/
structure AppTrace where
  stopped : Bool
  uiErrors : List String
  warnings : List String
  llmCalls : List (String × String)
  remoteCalls : List (ChatOpenAI × List Message)
  outputs : List String
  deriving DecidableEq

/-- Embedding of the module-level flow of src/app.py: the startup API-key
check (lines 16-18), then the button handler (lines 103-111).  `key` is the
value of `os.getenv` for the credential (absent = `none`). -/
def run_app (key : Option String) (env : LLMEnv) (ui : UIState) : AppTrace :=
  if !(truthy key) then
    { stopped := true
      uiErrors := ["OpenAI APIキーが設定されていません。.envファイルを確認してください。"]
      warnings := []
      llmCalls := []
      remoteCalls := []
      outputs := [] }
  else if ui.button_pressed then
    if pyStrip ui.user_query = "" then
      { stopped := false
        uiErrors := []
        warnings := ["相談内容を入力してください。"]
        llmCalls := []
        remoteCalls := []
        outputs := [] }
    else
      let tr := get_llm_response key env ui.user_query ui.selected_expert
      { stopped := false
        uiErrors := []
        warnings := []
        llmCalls := [(ui.user_query, ui.selected_expert)]
        remoteCalls := tr.remoteCalls
        outputs := [tr.result] }
  else
    { stopped := false
      uiErrors := []
      warnings := []
      llmCalls := []
      remoteCalls := []
      outputs := [] }

/-- Unfolding lemma: `get_llm_response` equals the explicit case analysis on
construction failure and invocation outcome, with the fixed client and the
two-message conversation spelled out. -/
theorem get_llm_response_spec (key : Option String) (env : LLMEnv)
    (u t : String) :
    get_llm_response key env u t =
      match env.initError with
      | some _ =>
        { result := "モデルの初期化に失敗しました。設定を確認してください。"
          remoteCalls := [] }
      | none =>
        match env.invoke (the_chat key) (the_messages t u) with
        | InvokeResult.success text =>
          { result := text
            remoteCalls := [(the_chat key, the_messages t u)] }
        | InvokeResult.failure _ =>
          { result := "回答の取得中にエラーが発生しました。しばらくしてからもう一度お試しください。"
            remoteCalls := [(the_chat key, the_messages t u)] } := by
  rfl

/-- A test environment where construction succeeds and the remote call
returns the fixed text "T". -/
def okEnv : LLMEnv :=
  { initError := none
    invoke := fun _ _ => InvokeResult.success "T" }

/-- A test environment where construction succeeds but the remote call
raises. -/
def failEnv : LLMEnv :=
  { initError := none
    invoke := fun _ _ => InvokeResult.failure "boom" }

/-- A test environment where client construction raises. -/
def badInitEnv : LLMEnv :=
  { initError := some "boom"
    invoke := fun _ _ => InvokeResult.success "T" }

/-- Claim C1: for each of the two known persona tags, `get_llm_response`
resolves exactly the fixed system instruction defined for that tag — the
system message of every remote call it makes carries that instruction. -/
theorem get_llm_response_known_personas (key : Option String) (env : LLMEnv)
    (u : String) (h : env.initError = none) :
    ((get_llm_response key env u "心理カウンセラー").remoteCalls.map
        fun c => c.2.head?)
      = [some (Message.mk Role.system "あなたは経験豊富で共感力の高い心理カウンセラーです。利用者の悩みや感情に寄り添い、専門的な知識に基づいて具体的かつ建設的なアドバイスをしてください。")]
    ∧ ((get_llm_response key env u "健康アドバイザー").remoteCalls.map
        fun c => c.2.head?)
      = [some (Message.mk Role.system "あなたは知識が豊富で信頼できる健康アドバイザーです。栄養、運動、生活習慣に関する質問に対し、科学的根拠に基づいた分かりやすい情報と実践的なアドバイスを提供してください。")] := by
  simp only [get_llm_response_spec, h]
  constructor
  · cases env.invoke (the_chat key) (the_messages "心理カウンセラー" u) <;>
      simp [the_messages, get_system_message_content]
  · cases env.invoke (the_chat key) (the_messages "健康アドバイザー" u) <;>
      simp [the_messages, get_system_message_content]

/-- Witness for C1 at a concrete environment. -/
theorem get_llm_response_known_personas_witness :
    okEnv.initError = none
    ∧ (((get_llm_response (some "k") okEnv "hi" "心理カウンセラー").remoteCalls.map
          fun c => c.2.head?)
        = [some (Message.mk Role.system "あなたは経験豊富で共感力の高い心理カウンセラーです。利用者の悩みや感情に寄り添い、専門的な知識に基づいて具体的かつ建設的なアドバイスをしてください。")]
      ∧ ((get_llm_response (some "k") okEnv "hi" "健康アドバイザー").remoteCalls.map
          fun c => c.2.head?)
        = [some (Message.mk Role.system "あなたは知識が豊富で信頼できる健康アドバイザーです。栄養、運動、生活習慣に関する質問に対し、科学的根拠に基づいた分かりやすい情報と実践的なアドバイスを提供してください。")]) :=
  ⟨rfl, get_llm_response_known_personas (some "k") okEnv "hi" rfl⟩

/-- Claim C2: for every non-empty user text and every persona tag, the
conversation passed to the remote invocation is exactly the two messages
[system, user], whose contents are the resolved instruction and the
verbatim user input. -/
theorem get_llm_response_two_messages (key : Option String) (env : LLMEnv)
    (u t : String) (h : env.initError = none) (hu : u ≠ "") :
    (get_llm_response key env u t).remoteCalls.map Prod.snd
      = [[ { role := Role.system, content := get_system_message_content t },
           { role := Role.user, content := u } ]] := by
  rw [get_llm_response_spec, h]
  cases env.invoke (the_chat key) (the_messages t u) <;>
    simp [the_messages]

/-- Witness for C2 at a concrete environment and inputs. -/
theorem get_llm_response_two_messages_witness :
    okEnv.initError = none ∧ "hi" ≠ ""
    ∧ (get_llm_response (some "k") okEnv "hi" "心理カウンセラー").remoteCalls.map
        Prod.snd
      = [[ Message.mk Role.system (get_system_message_content "心理カウンセラー"),
           { role := Role.user, content := "hi" } ]] :=
  ⟨rfl, by decide,
    get_llm_response_two_messages (some "k") okEnv "hi" "心理カウンセラー" rfl
      (by decide)⟩

/-- Claim C3: for any expert type that is neither of the two known persona
tags, `get_llm_response` does not fail and uses the generic assistant
instruction as the system message of its remote call. -/
theorem get_llm_response_unknown_persona (key : Option String) (env : LLMEnv)
    (u t : String) (h : env.initError = none)
    (h₁ : t ≠ "心理カウンセラー") (h₂ : t ≠ "健康アドバイザー") :
    (get_llm_response key env u t).remoteCalls.map Prod.snd
      = [[ Message.mk Role.system "あなたは親切で有能なAIアシスタントです。",
           { role := Role.user, content := u } ]] := by
  rw [get_llm_response_spec, h]
  cases env.invoke (the_chat key) (the_messages t u) <;>
    simp [the_messages, get_system_message_content, h₁, h₂]

/-- Witness for C3 at a concrete unknown tag. -/
theorem get_llm_response_unknown_persona_witness :
    okEnv.initError = none
    ∧ "弁護士" ≠ "心理カウンセラー" ∧ "弁護士" ≠ "健康アドバイザー"
    ∧ (get_llm_response (some "k") okEnv "hi" "弁護士").remoteCalls.map
        Prod.snd
      = [[ Message.mk Role.system "あなたは親切で有能なAIアシスタントです。",
           { role := Role.user, content := "hi" } ]] :=
  ⟨rfl, by decide, by decide,
    get_llm_response_unknown_persona (some "k") okEnv "hi" "弁護士" rfl
      (by decide) (by decide)⟩

/-- Claim C4: if the remote invocation raises, `get_llm_response` absorbs
the exception and returns the fixed invocation-failure sentinel string. -/
theorem get_llm_response_invoke_failure (key : Option String) (env : LLMEnv)
    (u t e : String) (h : env.initError = none)
    (hf : env.invoke (the_chat key) (the_messages t u)
        = InvokeResult.failure e) :
    (get_llm_response key env u t).result
      = "回答の取得中にエラーが発生しました。しばらくしてからもう一度お試しください。" := by
  rw [get_llm_response_spec, h, hf]

/-- Witness for C4 at a concrete failing environment. -/
theorem get_llm_response_invoke_failure_witness :
    failEnv.initError = none
    ∧ failEnv.invoke (the_chat (some "k")) (the_messages "心理カウンセラー" "hi")
        = InvokeResult.failure "boom"
    ∧ (get_llm_response (some "k") failEnv "hi" "心理カウンセラー").result
      = "回答の取得中にエラーが発生しました。しばらくしてからもう一度お試しください。" :=
  ⟨rfl, rfl,
    get_llm_response_invoke_failure (some "k") failEnv "hi" "心理カウンセラー"
      "boom" rfl rfl⟩

/-- Claim C5: if client construction raises, `get_llm_response` returns the
fixed initialization-failure sentinel (distinct from the invocation-failure
sentinel) and the remote endpoint is never invoked. -/
theorem get_llm_response_init_failure (key : Option String) (env : LLMEnv)
    (u t e : String) (h : env.initError = some e) :
    (get_llm_response key env u t).result
      = "モデルの初期化に失敗しました。設定を確認してください。"
    ∧ (get_llm_response key env u t).remoteCalls = []
    ∧ ("モデルの初期化に失敗しました。設定を確認してください。"
        ≠ "回答の取得中にエラーが発生しました。しばらくしてからもう一度お試しください。") := by
  rw [get_llm_response_spec, h]
  refine ⟨rfl, rfl, by decide⟩

/-- Witness for C5 at a concrete environment with failing construction. -/
theorem get_llm_response_init_failure_witness :
    badInitEnv.initError = some "boom"
    ∧ ((get_llm_response (some "k") badInitEnv "hi" "心理カウンセラー").result
        = "モデルの初期化に失敗しました。設定を確認してください。"
      ∧ (get_llm_response (some "k") badInitEnv "hi" "心理カウンセラー").remoteCalls = []
      ∧ ("モデルの初期化に失敗しました。設定を確認してください。"
          ≠ "回答の取得中にエラーが発生しました。しばらくしてからもう一度お試しください。")) :=
  ⟨rfl,
    get_llm_response_init_failure (some "k") badInitEnv "hi" "心理カウンセラー"
      "boom" rfl⟩

/-- Claim C6: if the remote invocation succeeds with text T, then
`get_llm_response` returns exactly T, unmodified. -/
theorem get_llm_response_success_verbatim (key : Option String) (env : LLMEnv)
    (u t T : String) (h : env.initError = none)
    (hs : env.invoke (the_chat key) (the_messages t u)
        = InvokeResult.success T) :
    (get_llm_response key env u t).result = T := by
  rw [get_llm_response_spec, h, hs]

/-- Witness for C6 at a concrete succeeding environment. -/
theorem get_llm_response_success_verbatim_witness :
    okEnv.initError = none
    ∧ okEnv.invoke (the_chat (some "k")) (the_messages "心理カウンセラー" "hi")
        = InvokeResult.success "T"
    ∧ (get_llm_response (some "k") okEnv "hi" "心理カウンセラー").result = "T" :=
  ⟨rfl, rfl,
    get_llm_response_success_verbatim (some "k") okEnv "hi" "心理カウンセラー"
      "T" rfl rfl⟩

/-- Claim C7: if the API-key credential is absent from the environment, the
app halts at startup — `st.stop()` runs before any widget or handler, so no
call to `get_llm_response`, no remote call and no output ever happens,
whatever the UI state or the remote environment. -/
theorem run_app_missing_key_halts (env : LLMEnv) (ui : UIState) :
    (run_app none env ui).stopped = true
    ∧ (run_app none env ui).llmCalls = []
    ∧ (run_app none env ui).remoteCalls = []
    ∧ (run_app none env ui).outputs = [] := by
  refine ⟨rfl, rfl, rfl, rfl⟩

/-- Claim C8: when the submitted query is empty or whitespace-only, the app
shows the warning, never invokes `get_llm_response`, and makes no remote
call. -/
theorem run_app_blank_query_warns (key : Option String) (env : LLMEnv)
    (ui : UIState) (hk : truthy key = true) (hb : ui.button_pressed = true)
    (hw : pyStrip ui.user_query = "") :
    (run_app key env ui).warnings = ["相談内容を入力してください。"]
    ∧ (run_app key env ui).llmCalls = []
    ∧ (run_app key env ui).remoteCalls = [] := by
  simp only [run_app, hk, hb, hw]
  refine ⟨rfl, rfl, rfl⟩

/-- Witness for C8 at a whitespace-only query mixing an ASCII space, a tab
and a full-width ideographic space (U+3000). -/
theorem run_app_blank_query_warns_witness :
    truthy (some "k") = true
    ∧ (UIState.mk " \t\u3000" "心理カウンセラー" true).button_pressed = true
    ∧ pyStrip (UIState.mk " \t\u3000" "心理カウンセラー" true).user_query = ""
    ∧ ((run_app (some "k") okEnv (UIState.mk " \t\u3000" "心理カウンセラー" true)).warnings
        = ["相談内容を入力してください。"]
      ∧ (run_app (some "k") okEnv (UIState.mk " \t\u3000" "心理カウンセラー" true)).llmCalls = []
      ∧ (run_app (some "k") okEnv (UIState.mk " \t\u3000" "心理カウンセラー" true)).remoteCalls = []) :=
  ⟨rfl, rfl, rfl,
    run_app_blank_query_warns (some "k") okEnv
      (UIState.mk " \t\u3000" "心理カウンセラー" true) rfl rfl rfl⟩

/-- Claim C9: every remote call uses the same fixed client configuration —
model "gpt-3.5-turbo", temperature 0.7, the process-wide credential, and an
HTTP client with no proxies and environment proxy lookup disabled — for all
user inputs and persona tags alike. -/
theorem get_llm_response_fixed_client (key : Option String) (env : LLMEnv)
    (u t : String) (h : env.initError = none) :
    (get_llm_response key env u t).remoteCalls.map Prod.fst = [the_chat key]
    ∧ (the_chat key).model_name = "gpt-3.5-turbo"
    ∧ (the_chat key).temperature = (0.7 : ℚ)
    ∧ (the_chat key).openai_api_key = key
    ∧ (the_chat key).http_client.trust_env = false
    ∧ (the_chat key).http_client.proxies = none := by
  rw [get_llm_response_spec, h]
  refine ⟨?_, rfl, rfl, rfl, rfl, rfl⟩
  cases env.invoke (the_chat key) (the_messages t u) <;> rfl

/-- Witness for C9 at a concrete environment. -/
theorem get_llm_response_fixed_client_witness :
    okEnv.initError = none
    ∧ ((get_llm_response (some "k") okEnv "hi" "心理カウンセラー").remoteCalls.map
        Prod.fst = [the_chat (some "k")]
      ∧ (the_chat (some "k")).model_name = "gpt-3.5-turbo"
      ∧ (the_chat (some "k")).temperature = (0.7 : ℚ)
      ∧ (the_chat (some "k")).openai_api_key = some "k"
      ∧ (the_chat (some "k")).http_client.trust_env = false
      ∧ (the_chat (some "k")).http_client.proxies = none) :=
  ⟨rfl, get_llm_response_fixed_client (some "k") okEnv "hi" "心理カウンセラー" rfl⟩

/-- Claim C10: prompt construction is noninterfering — with the same persona
tag, the system message sent by any two successful calls is identical
whatever the user inputs, keys or environments; and with the same user
input, the user message sent is identical whatever the persona tags. -/
theorem get_llm_response_noninterference (key₁ key₂ : Option String)
    (env₁ env₂ : LLMEnv) (u₁ u₂ u t₁ t₂ t : String)
    (h₁ : env₁.initError = none) (h₂ : env₂.initError = none) :
    ((get_llm_response key₁ env₁ u₁ t).remoteCalls.map fun c => c.2.head?)
      = ((get_llm_response key₂ env₂ u₂ t).remoteCalls.map fun c => c.2.head?)
    ∧ ((get_llm_response key₁ env₁ u t₁).remoteCalls.map fun c => c.2[1]?)
      = ((get_llm_response key₂ env₂ u t₂).remoteCalls.map fun c => c.2[1]?) := by
  simp only [get_llm_response_spec, h₁, h₂]
  constructor
  · cases env₁.invoke (the_chat key₁) (the_messages t u₁) <;>
      cases env₂.invoke (the_chat key₂) (the_messages t u₂) <;>
        simp [the_messages]
  · cases env₁.invoke (the_chat key₁) (the_messages t₁ u) <;>
      cases env₂.invoke (the_chat key₂) (the_messages t₂ u) <;>
        simp [the_messages]

/-- Witness for C10 at concrete pairs of calls. -/
theorem get_llm_response_noninterference_witness :
    okEnv.initError = none ∧ failEnv.initError = none
    ∧ (((get_llm_response (some "k") okEnv "hi" "心理カウンセラー").remoteCalls.map
          fun c => c.2.head?)
        = ((get_llm_response (some "j") failEnv "bye" "心理カウンセラー").remoteCalls.map
          fun c => c.2.head?)
      ∧ ((get_llm_response (some "k") okEnv "hi" "心理カウンセラー").remoteCalls.map
          fun c => c.2[1]?)
        = ((get_llm_response (some "j") failEnv "hi" "健康アドバイザー").remoteCalls.map
          fun c => c.2[1]?)) :=
  ⟨rfl, rfl,
    get_llm_response_noninterference (some "k") (some "j") okEnv failEnv
      "hi" "bye" "hi" "心理カウンセラー" "健康アドバイザー" "心理カウンセラー"
      rfl rfl⟩

end App
